import Mathlib

/-!
Shallow embedding of the padocc_cli group-deployment orchestrator
(`group_run.py`): the array-job renderer/deployer `deploy_array_job`
and the deployment section of `main`, together with theorems checking
the natural-language specification against this embedding.

Modelling conventions:
* Python `None`-able parameters become `Option` values.
* The dynamic value bound to `verbose` becomes `PyObj` (the source
  annotates it `int`, but `len(verbose)` only succeeds on values with a
  length, so the embedding keeps the dynamic type).
* Side effects (directory removal/creation, script writing, printing,
  shelling out) become an explicit `Event` trace; raised exceptions
  become `Except.error`.
* The external sbatch template file is represented by its fourteen
  positional slot values (`SlotValues`); the rendered script is the
  template applied to those slots followed by the appended flag string.
* The external per-phase default-time table `times` and the filesystem
  outcome of `os.makedirs` are parameters (`times`, `FsOracle`).
-/

set_option autoImplicit false

namespace GroupRun

/-- A Python runtime value bound to the `verbose` parameter: the source
calls `len(verbose)`, which succeeds on a string and raises `TypeError`
on an `int`. -/
inductive PyObj where
  | int (n : Int)
  | str (s : String)
deriving DecidableEq

/-- Python exceptions that the embedded code can raise. -/
inductive PyError where
  | typeError
  | osError
  | keyboardInterrupt
deriving DecidableEq

/-- Python `len`: defined on strings, raises `TypeError` on integers. -/
def pyLen : PyObj → Except PyError Nat
  | .int _ => .error .typeError
  | .str s => .ok s.length

/-- Truthiness of a Python optional string: `None` and `''` are falsy. -/
def pyTruthyStr : Option String → Bool
  | none => false
  | some s => s != ""

/-- Truthiness of a Python optional bool: `None` is falsy. -/
def pyTruthyBool : Option Bool → Bool
  | none => false
  | some b => b

/-- Outcome of the filesystem operations in the log-directory reset:
whether the error directory already exists (`os.path.isdir`), and
whether `os.makedirs` succeeds or raises `OSError`. -/
structure FsOracle where
  errdirExists : Bool
  mkdirOk : Bool
deriving DecidableEq

/-- The positional arguments of `deploy_array_job` describing the group. -/
structure GroupArgs where
  phase : String
  groupID : String
  workdir : String
  groupdir : String
  source : String
  venvpath : String
deriving DecidableEq

/-- The `array_job_kwargs` dictionary built in `main` (lines 188-201)
and the matching keyword parameters of `deploy_array_job`. -/
structure Kwargs where
  forceful : Option Bool
  dryrun : Option Bool
  quality : Option Bool
  verbose : PyObj
  binpack : Option Bool
  time_allowed : Option String
  memory : Option String
  subset : Option Int
  repeat_id : String
  bypass : String
  mode : Option String
  new_version : Option String
deriving DecidableEq

/-- The fourteen positional slot values passed to `sbatch.format(...)`
(line 86-95 of `group_run.py`): job name, time, memory, stdout path,
stderr path pattern, environment path, working directory, group
directory, entry-point path, phase, group id, time, memory, repeat id. -/
structure SlotValues where
  jobname : String
  time1 : String
  mem1 : String
  outdir : String
  errdir : String
  venvpath : String
  workdir : String
  groupdir : String
  masterScript : String
  phase : String
  groupID : String
  time2 : String
  mem2 : String
  repeatId : String
deriving DecidableEq

/-- A rendered submission script: the template applied to the slot
values, followed by the appended flag-argument string. -/
structure Script where
  slots : SlotValues
  flags : String
deriving DecidableEq

/-- Observable side effects of the embedded code, in execution order. -/
inductive Event where
  | removeDir (path : String)
  | makeDir (path : String)
  | writeScript (path : String) (content : Script)
  | logInfo (msg : String)
  | printLine (msg : String)
  | execCmd (cmd : String)
  | plannerCall (phase repeatId : String)
  | deployCall (groupLen : Int) (time joblabel : Option String)
deriving DecidableEq

/-- The values a successful `deploy_array_job` call determines: script
path, rendered script, submission command, composite repeat id, and
whether the command was executed (rather than printed under dry-run). -/
structure DeployOut where
  scriptPath : String
  script : Script
  command : String
  repeatId : String
  executed : Bool
deriving DecidableEq

/-- One allocation descriptor `(time_estimate, memory_label, task_count)`
as returned by the external planner `conf.create_allocations`. -/
structure Alloc where
  time : String
  memLabel : String
  jobs : Int
deriving DecidableEq

/-- `'v' * k`: the letter `v` repeated `k` times. -/
def vString (k : Nat) : String :=
  String.mk (List.replicate k 'v')

/-- Script path selection (lines 54-57): `{groupdir}/sbatch/{phase}.sbatch`,
or `{groupdir}/sbatch/{phase}_{joblabel}.sbatch` when a label is truthy. -/
def sbatchPath (groupdir phase : String) (joblabel : Option String) : String :=
  if pyTruthyStr joblabel then
    groupdir ++ "/sbatch/" ++ phase ++ "_" ++ joblabel.getD "" ++ ".sbatch"
  else
    groupdir ++ "/sbatch/" ++ phase ++ ".sbatch"

/-- Composite repeat id (line 58): when a label is truthy the source
reassigns `repeat_id = f'{repeat_id}/{joblabel}'`. -/
def compositeRepeat (repeat_id : String) (joblabel : Option String) : String :=
  if pyTruthyStr joblabel then repeat_id ++ "/" ++ joblabel.getD "" else repeat_id

/-- Python `repeat_id.replace("/","_")`: with a one-character pattern
and replacement this is a character-by-character substitution. -/
def slashToUnderscore (s : String) : String :=
  String.mk (s.data.map (fun c => if c = '/' then '_' else c))

/-- Error-log directory (line 78):
`{groupdir}/errs/{phase}_{repeat_id.replace("/","_")}/`. -/
def errdirBase (groupdir phase repeatId : String) : String :=
  groupdir ++ "/errs/" ++ phase ++ "_" ++ slashToUnderscore repeatId ++ "/"

/-- Time default (lines 68-69): `if time is None: time = time_allowed or
times[phase]` — the Python `or` falls through to the per-phase default
when `time_allowed` is falsy. -/
def resolvedTime (time time_allowed : Option String) (times : String → String)
    (phase : String) : String :=
  match time with
  | some t => t
  | none => if pyTruthyStr time_allowed then time_allowed.getD "" else times phase

/-- Memory value (line 70): `mem = '2G' or memory` — the Python `or`
returns its left operand when truthy, and `'2G'` is always truthy. -/
def resolvedMem (memory : Option String) : String :=
  if ("2G" : String) != "" then "2G" else memory.getD "None"

/-- Job name (lines 72-74): `{groupID}_{phase}`, or
`{joblabel}_{phase}_{groupID}` when a label is truthy. -/
def jobnameOf (groupID phase : String) (joblabel : Option String) : String :=
  if pyTruthyStr joblabel then
    joblabel.getD "" ++ "_" ++ phase ++ "_" ++ groupID
  else
    groupID ++ "_" ++ phase

/-- The slot values passed to `sbatch.format(...)` (lines 86-95). -/
def renderSlots (g : GroupArgs) (kw : Kwargs) (time joblabel : Option String)
    (times : String → String) : SlotValues :=
  let rid := compositeRepeat kw.repeat_id joblabel
  { jobname := jobnameOf g.groupID g.phase joblabel
    time1 := resolvedTime time kw.time_allowed times g.phase
    mem1 := resolvedMem kw.memory
    outdir := "/dev/null"
    errdir := errdirBase g.groupdir g.phase rid ++ "%A_%a.log"
    venvpath := g.venvpath
    workdir := g.workdir
    groupdir := g.groupdir
    masterScript := g.source ++ "/single_run.py"
    phase := g.phase
    groupID := g.groupID
    time2 := resolvedTime time kw.time_allowed times g.phase
    mem2 := resolvedMem kw.memory
    repeatId := rid }

/-- The flag-argument appends of lines 97-116, accumulated onto `sb`. -/
def appendFlags (sb : String) (kw : Kwargs) (verbLen : Nat) : String :=
  let sb := sb ++ " -b " ++ kw.bypass
  let sb := if kw.forceful.isSome then sb ++ " -f" else sb
  let verb := vString verbLen
  let sb := if verb = "" then sb else sb ++ " -" ++ verb
  let sb := if kw.quality.isSome then sb ++ " -Q" else sb
  let sb := if kw.dryrun.isSome then sb ++ " -d" else sb
  let sb := if kw.binpack.isSome then sb ++ " -A" else sb
  let sb := match kw.subset with | some n => sb ++ " -s " ++ toString n | none => sb
  let sb := match kw.new_version with | some v => sb ++ " -n " ++ v | none => sb
  let sb := match kw.mode with | some m => sb ++ " -m " ++ m | none => sb
  sb

/-- The submission command of lines 124/126:
`sbatch --array=0-{group_len-1} {group_phase_sbatch}`. -/
def sbatchCmd (group_len : Int) (path : String) : String :=
  "sbatch --array=0-" ++ toString (group_len - 1) ++ " " ++ path

/-- Shallow embedding of `deploy_array_job` (lines 14-126 of
`group_run.py`): computes paths and slot values, resets the error-log
directory, appends the carry-through flags (raising `TypeError` when
`len(verbose)` is undefined), writes the script, and prints (dry-run)
or executes the sbatch command. -/
def deploy_array_job (g : GroupArgs) (group_len : Int) (kw : Kwargs)
    (time joblabel : Option String) (times : String → String) (fs : FsOracle) :
    List Event × Except PyError DeployOut :=
  let path := sbatchPath g.groupdir g.phase joblabel
  let rid := compositeRepeat kw.repeat_id joblabel
  let errdir := errdirBase g.groupdir g.phase rid
  let ev := if fs.errdirExists then [Event.removeDir errdir] else []
  if fs.mkdirOk = false then
    (ev, .error .osError)
  else
    let ev := ev ++ [Event.makeDir errdir]
    match pyLen kw.verbose with
    | .error e => (ev, .error e)
    | .ok k =>
      let script : Script := ⟨renderSlots g kw time joblabel times, appendFlags "" kw k⟩
      let ev := ev ++ [Event.writeScript path script]
      let cmd := sbatchCmd group_len path
      if pyTruthyBool kw.dryrun then
        (ev ++ [Event.logInfo "DRYRUN: sbatch command: ", Event.printLine cmd],
          .ok ⟨path, script, cmd, rid, false⟩)
      else
        (ev ++ [Event.execCmd cmd], .ok ⟨path, script, cmd, rid, true⟩)

/-- The per-allocation summary printed in `main` (line 211):
`f'{alloc[0]}: ({alloc[1]}) - {alloc[2]} Jobs'`. -/
def allocSummary (a : Alloc) : String :=
  a.time ++ ": (" ++ a.memLabel ++ ") - " ++ toString a.jobs ++ " Jobs"

/-- The allocation loop of `main` (lines 217-222): each iteration calls
`deploy_array_job` with `**array_job_kwargs` (no `time`, no `joblabel`);
a raised exception propagates and stops the loop (the source has no
`try`/`except`).  The `Nat` argument indexes the filesystem oracle. -/
def deployLoop (g : GroupArgs) (kw : Kwargs) (times : String → String)
    (fsFor : Nat → FsOracle) : List Alloc → Nat →
    List Event × Except PyError (List DeployOut)
  | [], _ => ([], .ok [])
  | a :: rest, i =>
    let dr := deploy_array_job g a.jobs kw none none times (fsFor i)
    match dr.2 with
    | .error e => (Event.deployCall a.jobs none none :: dr.1, .error e)
    | .ok out =>
      let dl := deployLoop g kw times fsFor rest (i + 1)
      match dl.2 with
      | .error e =>
        (Event.deployCall a.jobs none none :: (dr.1 ++ dl.1), .error e)
      | .ok outs =>
        (Event.deployCall a.jobs none none :: (dr.1 ++ dl.1), .ok (out :: outs))

/-- Shallow embedding of the deployment section of `main` (lines
203-236): the planner path when `time_allowed` is falsy (planner call,
per-allocation summary, confirmation prompt, allocation loop), and the
explicit-time-override path otherwise (dataset count, confirmation
prompt, one deployment sized by the group's project codes).  A
confirmation answer other than `Y` raises `KeyboardInterrupt`. -/
def mainDeploy (g : GroupArgs) (kw : Kwargs) (allocations : List Alloc)
    (projCodes : List String) (userInput : String)
    (times : String → String) (fsFor : Nat → FsOracle) :
    List Event × Except PyError (List DeployOut) :=
  if pyTruthyStr kw.time_allowed = false then
    let ev0 := Event.plannerCall g.phase kw.repeat_id ::
      allocations.map (fun a => Event.printLine (allocSummary a))
    if userInput != "Y" then
      (ev0, .error .keyboardInterrupt)
    else
      let dl := deployLoop g kw times fsFor allocations 0
      (ev0 ++ dl.1, dl.2)
  else
    let num_datasets : Int := (projCodes.length : Int)
    let ev0 := [Event.logInfo ("All Datasets: " ++ kw.time_allowed.getD "" ++
      " (" ++ toString num_datasets ++ ")")]
    if userInput != "Y" then
      (ev0, .error .keyboardInterrupt)
    else
      let dr := deploy_array_job g num_datasets kw none none times (fsFor 0)
      (ev0 ++ Event.deployCall num_datasets none none :: dr.1,
        dr.2.map (fun o => [o]))

/-- Modelled from the spec: "After slot substitution, the renderer
appends flag arguments in a fixed order: bypass code (always present),
forceful, verbosity (repeated short flag, count = verbosity level),
quality, dry-run, binpack, subset size, new-version, mode — each
appended only if the corresponding value is set/non-default."  Each
list entry is one appended flag argument, in that fixed order. -/
def specFlagPieces (bypass : String) (forceful : Option Bool) (verbosity : Nat)
    (quality dryrun binpack : Option Bool) (subset : Option Int)
    (new_version mode : Option String) : List String :=
  [" -b " ++ bypass]
    ++ (if forceful.isSome then [" -f"] else [])
    ++ (if 0 < verbosity then [" -" ++ vString verbosity] else [])
    ++ (if quality.isSome then [" -Q"] else [])
    ++ (if dryrun.isSome then [" -d"] else [])
    ++ (if binpack.isSome then [" -A"] else [])
    ++ (match subset with | some n => [" -s " ++ toString n] | none => [])
    ++ (match new_version with | some v => [" -n " ++ v] | none => [])
    ++ (match mode with | some m => [" -m " ++ m] | none => [])

/-- The spec-side flag string: the ordered flag arguments, concatenated. -/
def specFlags (bypass : String) (forceful : Option Bool) (verbosity : Nat)
    (quality dryrun binpack : Option Bool) (subset : Option Int)
    (new_version mode : Option String) : String :=
  String.join (specFlagPieces bypass forceful verbosity quality dryrun binpack
    subset new_version mode)

/-! Concrete instances used by witnesses and counterexamples. -/

/-- A concrete group: phase `scan`, group `abcd`. -/
def gEx : GroupArgs := ⟨"scan", "abcd", "/wd", "/gd", "/src", "/venv"⟩

/-- A concrete stand-in for the external per-phase default-time table. -/
def timesEx : String → String := fun _ => "03:00:00"

/-- A filesystem on which the log-directory reset succeeds. -/
def fsOk : FsOracle := ⟨false, true⟩

/-- Concrete keyword arguments: dry-run set, memory `4G` supplied,
`verbose` bound to a value on which `len` is defined. -/
def kwEx : Kwargs :=
  { forceful := none, dryrun := some true, quality := none,
    verbose := PyObj.str "", binpack := none, time_allowed := none,
    memory := some "4G", subset := none, repeat_id := "main",
    bypass := "FDSC", mode := none, new_version := none }

/-! Characterization lemmas: one equation per control-flow outcome of
`deploy_array_job`. -/

theorem deploy_eq_mkdirFail (g : GroupArgs) (len : Int) (kw : Kwargs)
    (t j : Option String) (times : String → String) (fs : FsOracle)
    (hm : fs.mkdirOk = false) :
    deploy_array_job g len kw t j times fs =
      ((if fs.errdirExists then
          [Event.removeDir (errdirBase g.groupdir g.phase
            (compositeRepeat kw.repeat_id j))]
        else []), .error .osError) := by
  simp [deploy_array_job, hm]

theorem deploy_eq_lenErr (g : GroupArgs) (len : Int) (kw : Kwargs)
    (t j : Option String) (times : String → String) (fs : FsOracle)
    (e : PyError) (hm : fs.mkdirOk = true) (hv : pyLen kw.verbose = .error e) :
    deploy_array_job g len kw t j times fs =
      ((if fs.errdirExists then
          [Event.removeDir (errdirBase g.groupdir g.phase
            (compositeRepeat kw.repeat_id j))]
        else []) ++
        [Event.makeDir (errdirBase g.groupdir g.phase
          (compositeRepeat kw.repeat_id j))], .error e) := by
  cases he : fs.errdirExists <;> simp [deploy_array_job, hm, hv, he]

theorem deploy_eq_dry (g : GroupArgs) (len : Int) (kw : Kwargs)
    (t j : Option String) (times : String → String) (fs : FsOracle)
    (k : Nat) (hm : fs.mkdirOk = true) (hv : pyLen kw.verbose = .ok k)
    (hd : pyTruthyBool kw.dryrun = true) :
    deploy_array_job g len kw t j times fs =
      ((if fs.errdirExists then
          [Event.removeDir (errdirBase g.groupdir g.phase
            (compositeRepeat kw.repeat_id j))]
        else []) ++
        [Event.makeDir (errdirBase g.groupdir g.phase
            (compositeRepeat kw.repeat_id j)),
         Event.writeScript (sbatchPath g.groupdir g.phase j)
           ⟨renderSlots g kw t j times, appendFlags "" kw k⟩,
         Event.logInfo "DRYRUN: sbatch command: ",
         Event.printLine (sbatchCmd len (sbatchPath g.groupdir g.phase j))],
       .ok ⟨sbatchPath g.groupdir g.phase j,
            ⟨renderSlots g kw t j times, appendFlags "" kw k⟩,
            sbatchCmd len (sbatchPath g.groupdir g.phase j),
            compositeRepeat kw.repeat_id j, false⟩) := by
  cases he : fs.errdirExists <;> simp [deploy_array_job, hm, hv, hd, he]

theorem deploy_eq_exec (g : GroupArgs) (len : Int) (kw : Kwargs)
    (t j : Option String) (times : String → String) (fs : FsOracle)
    (k : Nat) (hm : fs.mkdirOk = true) (hv : pyLen kw.verbose = .ok k)
    (hd : pyTruthyBool kw.dryrun = false) :
    deploy_array_job g len kw t j times fs =
      ((if fs.errdirExists then
          [Event.removeDir (errdirBase g.groupdir g.phase
            (compositeRepeat kw.repeat_id j))]
        else []) ++
        [Event.makeDir (errdirBase g.groupdir g.phase
            (compositeRepeat kw.repeat_id j)),
         Event.writeScript (sbatchPath g.groupdir g.phase j)
           ⟨renderSlots g kw t j times, appendFlags "" kw k⟩,
         Event.execCmd (sbatchCmd len (sbatchPath g.groupdir g.phase j))],
       .ok ⟨sbatchPath g.groupdir g.phase j,
            ⟨renderSlots g kw t j times, appendFlags "" kw k⟩,
            sbatchCmd len (sbatchPath g.groupdir g.phase j),
            compositeRepeat kw.repeat_id j, true⟩) := by
  cases he : fs.errdirExists <;> simp [deploy_array_job, hm, hv, hd, he]

/-- Event classifiers. -/
def Event.isWrite : Event → Bool
  | .writeScript _ _ => true
  | _ => false

def Event.isExec : Event → Bool
  | .execCmd _ => true
  | _ => false

def Event.isDeployCall : Event → Bool
  | .deployCall _ _ _ => true
  | _ => false

def Event.isPlannerCall : Event → Bool
  | .plannerCall _ _ => true
  | _ => false

theorem vString_eq_empty_iff (k : Nat) : vString k = "" ↔ k = 0 := by
  constructor
  · intro h
    have h2 := congrArg String.data h
    simpa [vString] using h2
  · rintro rfl
    rfl

theorem append_step_ite (sb x : String) (c : Bool) :
    (if c = true then sb ++ x else sb) = sb ++ (if c = true then x else "") := by
  cases c <;> simp

theorem append_step_verb (sb : String) (k : Nat) :
    (if vString k = "" then sb else sb ++ " -" ++ vString k) =
      sb ++ (if 0 < k then " -" ++ vString k else "") := by
  cases k with
  | zero => simp [vString]
  | succ n =>
    rw [if_neg (by simp [vString_eq_empty_iff]), if_pos (Nat.zero_lt_succ n),
      String.append_assoc]

theorem join_append (l1 l2 : List String) :
    String.join (l1 ++ l2) = String.join l1 ++ String.join l2 := by
  apply String.ext
  simp

theorem join_singleton (x : String) : String.join [x] = x := by
  apply String.ext
  simp

theorem join_ite_singleton (c : Prop) [Decidable c] (x : String) :
    String.join (if c then [x] else []) = if c then x else "" := by
  by_cases h : c
  · simp [h, join_singleton]
  · simp [h, String.join]

/-- The flag string built by lines 97-116 equals the spec's ordered
flag-argument list, concatenated. -/
theorem appendFlags_eq_specFlags (kw : Kwargs) (k : Nat) :
    appendFlags "" kw k =
      specFlags kw.bypass kw.forceful k kw.quality kw.dryrun kw.binpack
        kw.subset kw.new_version kw.mode := by
  unfold appendFlags specFlags specFlagPieces
  cases kw.subset <;> cases kw.new_version <;> cases kw.mode <;>
    simp only [append_step_ite, append_step_verb, join_append, join_singleton,
      join_ite_singleton, List.nil_append, List.append_nil] <;>
    simp [String.append_assoc]

/-- Claim C1: on every successful render, the flag arguments appended after
slot substitution are exactly the spec's fixed-order list — bypass code
always present, forceful, verbosity (`v` repeated `len(verbose)` times),
quality, dry-run, binpack, subset, new-version, mode — each optional
one appended only if its value is set (not `None`; verbosity level
non-zero). -/
theorem flag_append_order (g : GroupArgs) (len : Int) (kw : Kwargs)
    (time joblabel : Option String) (times : String → String) (fs : FsOracle)
    (ev : List Event) (out : DeployOut) (k : Nat)
    (hk : pyLen kw.verbose = .ok k)
    (h : deploy_array_job g len kw time joblabel times fs = (ev, .ok out)) :
    out.script.flags =
      specFlags kw.bypass kw.forceful k kw.quality kw.dryrun kw.binpack
        kw.subset kw.new_version kw.mode := by
  have h2 : (deploy_array_job g len kw time joblabel times fs).2 = .ok out := by
    rw [h]
  cases hm : fs.mkdirOk
  · rw [deploy_eq_mkdirFail g len kw time joblabel times fs hm] at h2
    simp at h2
  · cases hd : pyTruthyBool kw.dryrun
    · rw [deploy_eq_exec g len kw time joblabel times fs k hm hk hd] at h2
      injection h2 with h3
      subst h3
      exact appendFlags_eq_specFlags kw k
    · rw [deploy_eq_dry g len kw time joblabel times fs k hm hk hd] at h2
      injection h2 with h3
      subst h3
      exact appendFlags_eq_specFlags kw k

/-- The concrete successful deployment used by the C1 witness. -/
def outW : DeployOut :=
  ⟨"/gd/sbatch/scan.sbatch",
   ⟨renderSlots gEx kwEx none none timesEx, appendFlags "" kwEx 0⟩,
   "sbatch --array=0-2 /gd/sbatch/scan.sbatch", "main", false⟩

/-- Witness for Claim C1 at a concrete input. -/
theorem flag_append_order_witness :
    outW.script.flags =
      specFlags kwEx.bypass kwEx.forceful 0 kwEx.quality kwEx.dryrun
        kwEx.binpack kwEx.subset kwEx.new_version kwEx.mode :=
  flag_append_order gEx 3 kwEx none none timesEx fsOk
    (deploy_array_job gEx 3 kwEx none none timesEx fsOk).1 outW 0 rfl rfl

/-- Claim C2: with `memory = '4G'` supplied, the memory slots of the rendered
script still hold `'2G'` — line 70 reads `mem = '2G' or memory`, whose
Python `or` always returns the truthy literal `'2G'`, never the
supplied memory value. -/
theorem memory_slot_always_2G :
    kwEx.memory = some "4G" ∧
    (deploy_array_job gEx 3 kwEx none none timesEx fsOk).2.map
      (fun o => o.script.slots.mem1) = Except.ok "2G" ∧
    (deploy_array_job gEx 3 kwEx none none timesEx fsOk).2.map
      (fun o => o.script.slots.mem2) = Except.ok "2G" :=
  ⟨rfl, rfl, rfl⟩

/-- Claim C3: for every integer verbosity value, `deploy_array_job` raises
`TypeError` at `verb = 'v' * len(verbose)` (an `int` has no `len()`),
so the append never completes and no script is written. -/
theorem verbosity_len_raises_typeError :
    ∀ n : Int,
      (deploy_array_job gEx 3 { kwEx with verbose := PyObj.int n }
        none none timesEx fsOk).2 = Except.error PyError.typeError ∧
      ((deploy_array_job gEx 3 { kwEx with verbose := PyObj.int n }
        none none timesEx fsOk).1).countP Event.isWrite = 0 :=
  fun _ => ⟨rfl, rfl⟩

/-- Claim C4: a zero-task allocation is not rejected or skipped: the code
still reports (dry-run) or executes the degenerate submission command
`sbatch --array=0--1 {script_path}`. -/
theorem zero_task_degenerate_command :
    (deploy_array_job gEx 0 kwEx none none timesEx fsOk).2.map
      (fun o => o.command) =
      Except.ok "sbatch --array=0--1 /gd/sbatch/scan.sbatch" ∧
    Event.printLine "sbatch --array=0--1 /gd/sbatch/scan.sbatch" ∈
      (deploy_array_job gEx 0 kwEx none none timesEx fsOk).1 ∧
    Event.execCmd "sbatch --array=0--1 /gd/sbatch/scan.sbatch" ∈
      (deploy_array_job gEx 0 { kwEx with dryrun := none }
        none none timesEx fsOk).1 :=
  ⟨rfl, by decide, by decide⟩

/-- The trace of one `deploy_array_job` call contains only filesystem,
logging/printing and command events — never planner or deploy-call
markers. -/
theorem deploy_countP_eq_zero (g : GroupArgs) (len : Int) (kw : Kwargs)
    (t j : Option String) (times : String → String) (fs : FsOracle)
    (p : Event → Bool)
    (h1 : ∀ s, p (Event.removeDir s) = false)
    (h2 : ∀ s, p (Event.makeDir s) = false)
    (h3 : ∀ s c, p (Event.writeScript s c) = false)
    (h4 : ∀ s, p (Event.logInfo s) = false)
    (h5 : ∀ s, p (Event.printLine s) = false)
    (h6 : ∀ s, p (Event.execCmd s) = false) :
    ((deploy_array_job g len kw t j times fs).1).countP p = 0 := by
  cases hm : fs.mkdirOk
  · rw [deploy_eq_mkdirFail g len kw t j times fs hm]
    cases hex : fs.errdirExists <;>
      simp [hex, List.countP_cons, h1]
  · cases hv : pyLen kw.verbose with
    | error er =>
      rw [deploy_eq_lenErr g len kw t j times fs er hm hv]
      cases hex : fs.errdirExists <;>
        simp [hex, List.countP_cons, h1, h2]
    | ok k =>
      cases hd : pyTruthyBool kw.dryrun
      · rw [deploy_eq_exec g len kw t j times fs k hm hv hd]
        cases hex : fs.errdirExists <;>
          simp [hex, List.countP_cons, h1, h2, h3, h6]
      · rw [deploy_eq_dry g len kw t j times fs k hm hv hd]
        cases hex : fs.errdirExists <;>
          simp [hex, List.countP_cons, h1, h2, h3, h4, h5]

/-- Concrete planner output: two allocations. -/
def allocsEx : List Alloc := [⟨"01:00:00", "2G", 50⟩, ⟨"02:00:00", "4G", 10⟩]

/-- A filesystem oracle on which the first allocation's `os.makedirs`
raises and every later one succeeds. -/
def fsBad0 : Nat → FsOracle := fun i => if i = 0 then ⟨false, false⟩ else ⟨false, true⟩

/-- Claim C6: any confirmation input other than `Y` makes the group
orchestrator raise `KeyboardInterrupt`, with no script written, no
submission command executed and no deployment invoked, on the planner
path and on the explicit time-override path alike. -/
theorem user_decline_aborts (g : GroupArgs) (kw : Kwargs)
    (allocations : List Alloc) (projCodes : List String) (input : String)
    (times : String → String) (fsFor : Nat → FsOracle)
    (ev : List Event) (r : Except PyError (List DeployOut))
    (hin : input ≠ "Y")
    (h : mainDeploy g kw allocations projCodes input times fsFor = (ev, r)) :
    r = .error .keyboardInterrupt ∧ ev.countP Event.isWrite = 0 ∧
      ev.countP Event.isExec = 0 ∧ ev.countP Event.isDeployCall = 0 := by
  have hbne : (input != "Y") = true := bne_iff_ne.mpr hin
  unfold mainDeploy at h
  cases hta : pyTruthyStr kw.time_allowed <;>
    rw [hta] at h <;> simp only [hbne, if_true, if_false, ite_true, ite_false,
      Bool.false_eq_true, Bool.true_eq_false] at h
  · obtain ⟨h1, h2⟩ := Prod.mk.injEq .. |>.mp h.symm
    subst h1
    subst h2
    refine ⟨rfl, ?_, ?_, ?_⟩ <;>
      simp [List.countP_cons, List.countP_map, Event.isWrite, Event.isExec,
        Event.isDeployCall, Event.isPlannerCall, Function.comp]
  · obtain ⟨h1, h2⟩ := Prod.mk.injEq .. |>.mp h.symm
    subst h1
    subst h2
    refine ⟨rfl, ?_, ?_, ?_⟩ <;>
      simp [Event.isWrite, Event.isExec, Event.isDeployCall]

/-- Witness for Claim C6 at a concrete declined input. -/
theorem user_decline_aborts_witness :
    (mainDeploy gEx kwEx allocsEx [] "N" timesEx (fun _ => fsOk)).2 =
      .error .keyboardInterrupt ∧
    (mainDeploy gEx kwEx allocsEx [] "N" timesEx (fun _ => fsOk)).1.countP
      Event.isWrite = 0 ∧
    (mainDeploy gEx kwEx allocsEx [] "N" timesEx (fun _ => fsOk)).1.countP
      Event.isExec = 0 ∧
    (mainDeploy gEx kwEx allocsEx [] "N" timesEx (fun _ => fsOk)).1.countP
      Event.isDeployCall = 0 :=
  user_decline_aborts gEx kwEx allocsEx [] "N" timesEx (fun _ => fsOk)
    (mainDeploy gEx kwEx allocsEx [] "N" timesEx (fun _ => fsOk)).1
    (mainDeploy gEx kwEx allocsEx [] "N" timesEx (fun _ => fsOk)).2
    (by decide) rfl

/-- Keyword arguments carrying an explicit time override. -/
def kwOv : Kwargs := { kwEx with time_allowed := some "01:00:00" }

/-- Claim C7: with an explicit time override and a confirmed prompt,
the planner is never invoked and exactly one deployment occurs, sized
by the group's current number of project codes for the repeat id. -/
theorem time_override_single_deploy (g : GroupArgs) (kw : Kwargs)
    (allocations : List Alloc) (projCodes : List String)
    (times : String → String) (fsFor : Nat → FsOracle)
    (ev : List Event) (r : Except PyError (List DeployOut))
    (ht : pyTruthyStr kw.time_allowed = true)
    (h : mainDeploy g kw allocations projCodes "Y" times fsFor = (ev, r)) :
    ev.countP Event.isPlannerCall = 0 ∧ ev.countP Event.isDeployCall = 1 ∧
      Event.deployCall ((projCodes.length : Int)) none none ∈ ev := by
  unfold mainDeploy at h
  rw [ht] at h
  simp only [Bool.true_eq_false, if_false, ite_false, bne_self_eq_false] at h
  obtain ⟨h1, h2⟩ := Prod.mk.injEq .. |>.mp h.symm
  subst h1
  refine ⟨?_, ?_, ?_⟩
  · simp [List.countP_cons, Event.isPlannerCall,
      deploy_countP_eq_zero g _ kw none none times (fsFor 0) Event.isPlannerCall
        (fun _ => rfl) (fun _ => rfl) (fun _ _ => rfl) (fun _ => rfl)
        (fun _ => rfl) (fun _ => rfl)]
  · simp [List.countP_cons, Event.isDeployCall,
      deploy_countP_eq_zero g _ kw none none times (fsFor 0) Event.isDeployCall
        (fun _ => rfl) (fun _ => rfl) (fun _ _ => rfl) (fun _ => rfl)
        (fun _ => rfl) (fun _ => rfl)]
  · simp

/-- Witness for Claim C7 with three project codes. -/
theorem time_override_single_deploy_witness :
    (mainDeploy gEx kwOv allocsEx ["a", "b", "c"] "Y" timesEx
      (fun _ => fsOk)).1.countP Event.isPlannerCall = 0 ∧
    (mainDeploy gEx kwOv allocsEx ["a", "b", "c"] "Y" timesEx
      (fun _ => fsOk)).1.countP Event.isDeployCall = 1 ∧
    Event.deployCall ((["a", "b", "c"].length : Int)) none none ∈
      (mainDeploy gEx kwOv allocsEx ["a", "b", "c"] "Y" timesEx
        (fun _ => fsOk)).1 :=
  time_override_single_deploy gEx kwOv allocsEx ["a", "b", "c"] timesEx
    (fun _ => fsOk)
    (mainDeploy gEx kwOv allocsEx ["a", "b", "c"] "Y" timesEx (fun _ => fsOk)).1
    (mainDeploy gEx kwOv allocsEx ["a", "b", "c"] "Y" timesEx (fun _ => fsOk)).2
    rfl rfl

/-- Counterexample to Claim C5 as stated: a group deployment of two
allocations whose first log-directory creation fails performs only one
deployment attempt — the remaining allocation is not attempted. -/
theorem logdir_failure_counterexample :
    allocsEx.length = 2 ∧
    (mainDeploy gEx kwEx allocsEx [] "Y" timesEx fsBad0).2 =
      .error .osError ∧
    (mainDeploy gEx kwEx allocsEx [] "Y" timesEx fsBad0).1.countP
      Event.isDeployCall = 1 :=
  ⟨rfl, rfl, rfl⟩

/-- Claim C5 (amended): a log-directory creation failure aborts that
allocation before its script is written, and the raised error
propagates out of the allocation loop, so the remaining allocations of
the run are not attempted. -/
theorem logdir_failure_aborts_run (g : GroupArgs) (kw : Kwargs)
    (a : Alloc) (rest : List Alloc) (projCodes : List String)
    (times : String → String) (fsFor : Nat → FsOracle)
    (ev : List Event) (r : Except PyError (List DeployOut))
    (hta : pyTruthyStr kw.time_allowed = false)
    (hf : (fsFor 0).mkdirOk = false)
    (h : mainDeploy g kw (a :: rest) projCodes "Y" times fsFor = (ev, r)) :
    r = .error .osError ∧ ev.countP Event.isDeployCall = 1 ∧
      ev.countP Event.isWrite = 0 := by
  unfold mainDeploy at h
  rw [hta] at h
  simp only [bne_self_eq_false, if_false, ite_false, ite_true, if_true] at h
  rw [deployLoop] at h
  rw [deploy_eq_mkdirFail g a.jobs kw none none times (fsFor 0) hf] at h
  simp only [] at h
  obtain ⟨h1, h2⟩ := Prod.mk.injEq .. |>.mp h.symm
  subst h1
  subst h2
  refine ⟨rfl, ?_, ?_⟩ <;>
    cases hex : (fsFor 0).errdirExists <;>
      simp [hex, List.countP_cons, List.countP_map, Event.isDeployCall,
        Event.isWrite, Event.isPlannerCall, Function.comp]

/-- Witness for the amended Claim C5. -/
theorem logdir_failure_aborts_run_witness :
    (mainDeploy gEx kwEx (Alloc.mk "01:00:00" "2G" 50 ::
      [Alloc.mk "02:00:00" "4G" 10]) [] "Y" timesEx fsBad0).2 =
      .error .osError ∧
    (mainDeploy gEx kwEx (Alloc.mk "01:00:00" "2G" 50 ::
      [Alloc.mk "02:00:00" "4G" 10]) [] "Y" timesEx fsBad0).1.countP
      Event.isDeployCall = 1 ∧
    (mainDeploy gEx kwEx (Alloc.mk "01:00:00" "2G" 50 ::
      [Alloc.mk "02:00:00" "4G" 10]) [] "Y" timesEx fsBad0).1.countP
      Event.isWrite = 0 :=
  logdir_failure_aborts_run gEx kwEx (Alloc.mk "01:00:00" "2G" 50)
    [Alloc.mk "02:00:00" "4G" 10] [] timesEx fsBad0
    (mainDeploy gEx kwEx (Alloc.mk "01:00:00" "2G" 50 ::
      [Alloc.mk "02:00:00" "4G" 10]) [] "Y" timesEx fsBad0).1
    (mainDeploy gEx kwEx (Alloc.mk "01:00:00" "2G" 50 ::
      [Alloc.mk "02:00:00" "4G" 10]) [] "Y" timesEx fsBad0).2
    rfl rfl rfl

/-- Claim C8: on every successful deployment the submission command is
`sbatch --array=0-{N-1} {script_path}`; the log directory is removed
(when present) and recreated regardless of dry-run; under dry-run the
command is printed and nothing is executed, otherwise that same
command is executed. -/
theorem dryrun_reports_command (g : GroupArgs) (len : Int) (kw : Kwargs)
    (time joblabel : Option String) (times : String → String) (fs : FsOracle)
    (ev : List Event) (out : DeployOut)
    (h : deploy_array_job g len kw time joblabel times fs = (ev, .ok out)) :
    out.command =
      "sbatch --array=0-" ++ toString (len - 1) ++ " " ++ out.scriptPath ∧
    Event.makeDir (errdirBase g.groupdir g.phase
      (compositeRepeat kw.repeat_id joblabel)) ∈ ev ∧
    (fs.errdirExists = true →
      Event.removeDir (errdirBase g.groupdir g.phase
        (compositeRepeat kw.repeat_id joblabel)) ∈ ev) ∧
    (pyTruthyBool kw.dryrun = true →
      Event.printLine out.command ∈ ev ∧ ev.countP Event.isExec = 0) ∧
    (pyTruthyBool kw.dryrun = false → Event.execCmd out.command ∈ ev) := by
  cases hm : fs.mkdirOk
  · have h2 : (deploy_array_job g len kw time joblabel times fs).2 = .ok out := by
      rw [h]
    rw [deploy_eq_mkdirFail g len kw time joblabel times fs hm] at h2
    simp at h2
  · cases hv : pyLen kw.verbose with
    | error er =>
      have h2 : (deploy_array_job g len kw time joblabel times fs).2 = .ok out := by
        rw [h]
      rw [deploy_eq_lenErr g len kw time joblabel times fs er hm hv] at h2
      simp at h2
    | ok k =>
      cases hd : pyTruthyBool kw.dryrun
      · rw [deploy_eq_exec g len kw time joblabel times fs k hm hv hd] at h
        obtain ⟨h1, h2⟩ := Prod.mk.injEq .. |>.mp h
        injection h2 with h3
        subst h3
        subst h1
        refine ⟨by simp [sbatchCmd], ?_, ?_, ?_, ?_⟩
        · cases hex : fs.errdirExists <;> simp [hex]
        · intro hex
          simp [hex]
        · intro hcontra
          exact absurd hcontra (by simp [hd])
        · intro _
          cases hex : fs.errdirExists <;> simp [hex]
      · rw [deploy_eq_dry g len kw time joblabel times fs k hm hv hd] at h
        obtain ⟨h1, h2⟩ := Prod.mk.injEq .. |>.mp h
        injection h2 with h3
        subst h3
        subst h1
        refine ⟨by simp [sbatchCmd], ?_, ?_, ?_, ?_⟩
        · cases hex : fs.errdirExists <;> simp [hex]
        · intro hex
          simp [hex]
        · intro _
          constructor
          · cases hex : fs.errdirExists <;> simp [hex]
          · cases hex : fs.errdirExists <;>
              simp [hex, List.countP_cons, Event.isExec]
        · intro hcontra
          exact absurd hcontra (by simp [hd])

/-- The successful twelve-task dry-run deployment used by the C8 witness. -/
def outD : DeployOut :=
  ⟨"/gd/sbatch/scan.sbatch",
   ⟨renderSlots gEx kwEx none none timesEx, appendFlags "" kwEx 0⟩,
   "sbatch --array=0-11 /gd/sbatch/scan.sbatch", "main", false⟩

/-- Witness for Claim C8: an allocation of twelve tasks under dry-run. -/
theorem dryrun_reports_command_witness :
    outD.command =
      "sbatch --array=0-" ++ toString ((12 : Int) - 1) ++ " " ++
        outD.scriptPath ∧
    Event.makeDir (errdirBase gEx.groupdir gEx.phase
      (compositeRepeat kwEx.repeat_id none)) ∈
      (deploy_array_job gEx 12 kwEx none none timesEx fsOk).1 ∧
    (fsOk.errdirExists = true →
      Event.removeDir (errdirBase gEx.groupdir gEx.phase
        (compositeRepeat kwEx.repeat_id none)) ∈
        (deploy_array_job gEx 12 kwEx none none timesEx fsOk).1) ∧
    (pyTruthyBool kwEx.dryrun = true →
      Event.printLine outD.command ∈
        (deploy_array_job gEx 12 kwEx none none timesEx fsOk).1 ∧
      ((deploy_array_job gEx 12 kwEx none none timesEx fsOk).1).countP
        Event.isExec = 0) ∧
    (pyTruthyBool kwEx.dryrun = false →
      Event.execCmd outD.command ∈
        (deploy_array_job gEx 12 kwEx none none timesEx fsOk).1) :=
  dryrun_reports_command gEx 12 kwEx none none timesEx fsOk
    (deploy_array_job gEx 12 kwEx none none timesEx fsOk).1 outD rfl

/-- Counterexample to Claim C9 as stated: with label `band1` and repeat
`main` the composite identifier the code propagates is `main/band1`
(`repeat/label`), not `band1/main` (`label/repeat`). -/
theorem label_repeat_counterexample :
    (deploy_array_job gEx 3 kwEx none (some "band1") timesEx fsOk).2.map
      (fun o => o.repeatId) = Except.ok "main/band1" ∧
    "main/band1" ≠ "band1/main" :=
  ⟨rfl, by decide⟩

/-- Claim C9 (amended): for every truthy job label, the composite
repeat identifier propagated downstream — into the rendered script's
repeat-id slot and the error-log path — is `repeat/label`. -/
theorem composite_repeat_is_repeat_slash_label (g : GroupArgs) (len : Int)
    (kw : Kwargs) (time : Option String) (label : String)
    (times : String → String) (fs : FsOracle)
    (ev : List Event) (out : DeployOut)
    (hl : label ≠ "")
    (h : deploy_array_job g len kw time (some label) times fs = (ev, .ok out)) :
    out.repeatId = kw.repeat_id ++ "/" ++ label ∧
    out.script.slots.repeatId = kw.repeat_id ++ "/" ++ label ∧
    out.script.slots.errdir =
      errdirBase g.groupdir g.phase (kw.repeat_id ++ "/" ++ label) ++
        "%A_%a.log" := by
  have hcr : compositeRepeat kw.repeat_id (some label) =
      kw.repeat_id ++ "/" ++ label := by
    simp [compositeRepeat, pyTruthyStr, bne_iff_ne.mpr hl]
  have h2 : (deploy_array_job g len kw time (some label) times fs).2 = .ok out := by
    rw [h]
  cases hm : fs.mkdirOk
  · rw [deploy_eq_mkdirFail g len kw time (some label) times fs hm] at h2
    simp at h2
  · cases hv : pyLen kw.verbose with
    | error er =>
      rw [deploy_eq_lenErr g len kw time (some label) times fs er hm hv] at h2
      simp at h2
    | ok k =>
      cases hd : pyTruthyBool kw.dryrun
      · rw [deploy_eq_exec g len kw time (some label) times fs k hm hv hd] at h2
        injection h2 with h3
        subst h3
        exact ⟨hcr, by simp [renderSlots, hcr], by simp [renderSlots, hcr]⟩
      · rw [deploy_eq_dry g len kw time (some label) times fs k hm hv hd] at h2
        injection h2 with h3
        subst h3
        exact ⟨hcr, by simp [renderSlots, hcr], by simp [renderSlots, hcr]⟩

/-- The successful labelled deployment used by the C9 witness. -/
def outL : DeployOut :=
  ⟨"/gd/sbatch/scan_band1.sbatch",
   ⟨renderSlots gEx kwEx none (some "band1") timesEx, appendFlags "" kwEx 0⟩,
   "sbatch --array=0-2 /gd/sbatch/scan_band1.sbatch", "main/band1", false⟩

/-- Witness for the amended Claim C9 with label `band1`, repeat `main`. -/
theorem composite_repeat_witness :
    outL.repeatId = kwEx.repeat_id ++ "/" ++ "band1" ∧
    outL.script.slots.repeatId = kwEx.repeat_id ++ "/" ++ "band1" ∧
    outL.script.slots.errdir =
      errdirBase gEx.groupdir gEx.phase (kwEx.repeat_id ++ "/" ++ "band1") ++
        "%A_%a.log" :=
  composite_repeat_is_repeat_slash_label gEx 3 kwEx none "band1" timesEx fsOk
    (deploy_array_job gEx 3 kwEx none (some "band1") timesEx fsOk).1 outL
    (by decide) rfl

/-- On success, a `deploy_array_job` call writes exactly one script, at
the per-phase (per-label) path, whose slots are the rendered slot
values. -/
theorem deploy_ok_inv (g : GroupArgs) (len : Int) (kw : Kwargs)
    (t j : Option String) (times : String → String) (fs : FsOracle)
    (out : DeployOut)
    (h : (deploy_array_job g len kw t j times fs).2 = .ok out) :
    out.scriptPath = sbatchPath g.groupdir g.phase j ∧
    out.script.slots = renderSlots g kw t j times ∧
    (deploy_array_job g len kw t j times fs).1.filter Event.isWrite =
      [Event.writeScript out.scriptPath out.script] := by
  cases hm : fs.mkdirOk
  · rw [deploy_eq_mkdirFail g len kw t j times fs hm] at h
    simp at h
  · cases hv : pyLen kw.verbose with
    | error er =>
      rw [deploy_eq_lenErr g len kw t j times fs er hm hv] at h
      simp at h
    | ok k =>
      cases hd : pyTruthyBool kw.dryrun
      · rw [deploy_eq_exec g len kw t j times fs k hm hv hd] at h
        injection h with h3
        subst h3
        refine ⟨rfl, rfl, ?_⟩
        rw [deploy_eq_exec g len kw t j times fs k hm hv hd]
        cases hex : fs.errdirExists <;> simp [hex, Event.isWrite]
      · rw [deploy_eq_dry g len kw t j times fs k hm hv hd] at h
        injection h with h3
        subst h3
        refine ⟨rfl, rfl, ?_⟩
        rw [deploy_eq_dry g len kw t j times fs k hm hv hd]
        cases hex : fs.errdirExists <;> simp [hex, Event.isWrite]

/-- A `deploy_array_job` trace never contains a deploy-call marker. -/
theorem deploy_no_deployCall (g : GroupArgs) (len : Int) (kw : Kwargs)
    (t j : Option String) (times : String → String) (fs : FsOracle) :
    ∀ e ∈ (deploy_array_job g len kw t j times fs).1,
      Event.isDeployCall e = false := by
  intro e he
  have hz := deploy_countP_eq_zero g len kw t j times fs Event.isDeployCall
    (fun _ => rfl) (fun _ => rfl) (fun _ _ => rfl) (fun _ => rfl)
    (fun _ => rfl) (fun _ => rfl)
  have := List.countP_eq_zero.mp hz e he
  simpa using this

/-- Invariant of the allocation loop (lines 217-222): on success there
is one deployment per allocation, every deploy call passes no `time`
and no `joblabel`, every script goes to the unlabelled per-phase path
with the rendered slot values, and the writes appear in allocation
order. -/
theorem deployLoop_ok (g : GroupArgs) (kw : Kwargs) (times : String → String)
    (fsFor : Nat → FsOracle) :
    ∀ (allocs : List Alloc) (i : Nat) (outs : List DeployOut),
      (deployLoop g kw times fsFor allocs i).2 = .ok outs →
      outs.length = allocs.length ∧
      (∀ e ∈ (deployLoop g kw times fsFor allocs i).1,
        Event.isDeployCall e = true → ∃ n, e = Event.deployCall n none none) ∧
      (∀ out ∈ outs,
        out.scriptPath = sbatchPath g.groupdir g.phase none ∧
        out.script.slots = renderSlots g kw none none times) ∧
      (deployLoop g kw times fsFor allocs i).1.filter Event.isWrite =
        outs.map (fun o => Event.writeScript o.scriptPath o.script)
  | [], i, outs, h => by
    simp only [deployLoop] at h
    injection h with h3
    subst h3
    simp [deployLoop]
  | a :: rest, i, outs, h => by
    simp only [deployLoop] at h ⊢
    cases hdr : (deploy_array_job g a.jobs kw none none times (fsFor i)).2 with
    | error e =>
      rw [hdr] at h
      simp at h
    | ok out =>
      cases hdl : (deployLoop g kw times fsFor rest (i + 1)).2 with
      | error e =>
        rw [hdr, hdl] at h
        simp at h
      | ok outs2 =>
        rw [hdr, hdl] at h
        simp only [] at h
        injection h with h3
        subst h3
        obtain ⟨ih1, ih2, ih3, ih4⟩ :=
          deployLoop_ok g kw times fsFor rest (i + 1) outs2 hdl
        obtain ⟨d1, d2, d3⟩ :=
          deploy_ok_inv g a.jobs kw none none times (fsFor i) out hdr
        dsimp only
        refine ⟨by simp [ih1], ?_, ?_, ?_⟩
        · intro e he hc
          simp only [List.mem_cons, List.mem_append] at he
          rcases he with rfl | he | he
          · exact ⟨a.jobs, rfl⟩
          · exact absurd hc (by simp [deploy_no_deployCall g a.jobs kw none
              none times (fsFor i) e he])
          · exact ih2 e he hc
        · intro o ho
          rcases List.mem_cons.mp ho with rfl | ho
          · exact ⟨d1, d2⟩
          · exact ih3 o ho
        · simp [List.filter_append, Event.isDeployCall, d3, ih4, Event.isWrite]

/-- Claim C10: on the planner path with a confirmed prompt, the
planner's per-allocation time and memory appear only in the printed
summary; every deployment is invoked without a `time` or `joblabel`
argument, so each script is rendered with the phase-default time and
the constant memory, and every allocation's script is written to the
single path `{groupdir}/sbatch/{phase}.sbatch`, one write per
allocation in order — each later write overwriting the previous. -/
theorem planner_path_uniform_scripts (g : GroupArgs) (kw : Kwargs)
    (allocations : List Alloc) (projCodes : List String)
    (times : String → String) (fsFor : Nat → FsOracle)
    (ev : List Event) (outs : List DeployOut)
    (hta : pyTruthyStr kw.time_allowed = false)
    (h : mainDeploy g kw allocations projCodes "Y" times fsFor = (ev, .ok outs)) :
    outs.length = allocations.length ∧
    (∀ a ∈ allocations, Event.printLine (allocSummary a) ∈ ev) ∧
    (∀ e ∈ ev, Event.isDeployCall e = true →
      ∃ n, e = Event.deployCall n none none) ∧
    (∀ out ∈ outs,
      out.scriptPath = g.groupdir ++ "/sbatch/" ++ g.phase ++ ".sbatch" ∧
      out.script.slots.time1 = times g.phase ∧
      out.script.slots.mem1 = "2G") ∧
    ev.filter Event.isWrite =
      outs.map (fun o => Event.writeScript o.scriptPath o.script) := by
  unfold mainDeploy at h
  rw [hta] at h
  simp only [bne_self_eq_false, ite_false, if_false, ite_true, if_true,
    Bool.false_eq_true] at h
  obtain ⟨h1, h2⟩ := Prod.mk.injEq .. |>.mp h
  subst h1
  obtain ⟨l1, l2, l3, l4⟩ := deployLoop_ok g kw times fsFor allocations 0 outs h2
  have hpath : sbatchPath g.groupdir g.phase none =
      g.groupdir ++ "/sbatch/" ++ g.phase ++ ".sbatch" := by
    simp [sbatchPath, pyTruthyStr]
  refine ⟨l1, ?_, ?_, ?_, ?_⟩
  · intro a ha
    simp only [List.cons_append, List.mem_cons, List.mem_append, List.mem_map]
    exact Or.inr (Or.inl ⟨a, ha, rfl⟩)
  · intro e he hc
    simp only [List.cons_append, List.mem_cons, List.mem_append,
      List.mem_map] at he
    rcases he with rfl | ⟨a, -, rfl⟩ | he
    · exact absurd hc (by simp [Event.isDeployCall])
    · exact absurd hc (by simp [Event.isDeployCall])
    · exact l2 e he hc
  · intro o ho
    obtain ⟨p1, p2⟩ := l3 o ho
    refine ⟨hpath ▸ p1, ?_, ?_⟩
    · rw [p2]
      simp [renderSlots, resolvedTime, hta]
    · rw [p2]
      simp [renderSlots, resolvedMem]
  · have hnil : (allocations.map
        (fun a => Event.printLine (allocSummary a))).filter Event.isWrite = [] := by
      refine List.filter_eq_nil_iff.mpr ?_
      intro e he
      obtain ⟨a, -, rfl⟩ := List.mem_map.mp he
      simp [Event.isWrite]
    rw [List.cons_append, List.filter_cons_of_neg, List.filter_append, hnil,
      List.nil_append]
    · exact l4
    · simp [Event.isWrite]

/-- The two deployments of the C10 witness run: fifty then ten tasks,
identical script content, the same script path. -/
def outsP : List DeployOut :=
  [⟨"/gd/sbatch/scan.sbatch",
    ⟨renderSlots gEx kwEx none none timesEx, appendFlags "" kwEx 0⟩,
    "sbatch --array=0-49 /gd/sbatch/scan.sbatch", "main", false⟩,
   ⟨"/gd/sbatch/scan.sbatch",
    ⟨renderSlots gEx kwEx none none timesEx, appendFlags "" kwEx 0⟩,
    "sbatch --array=0-9 /gd/sbatch/scan.sbatch", "main", false⟩]

/-- Witness for Claim C10 on a two-allocation planner-path run. -/
theorem planner_path_uniform_scripts_witness :
    outsP.length = allocsEx.length ∧
    (∀ a ∈ allocsEx, Event.printLine (allocSummary a) ∈
      (mainDeploy gEx kwEx allocsEx [] "Y" timesEx (fun _ => fsOk)).1) ∧
    (∀ e ∈ (mainDeploy gEx kwEx allocsEx [] "Y" timesEx (fun _ => fsOk)).1,
      Event.isDeployCall e = true → ∃ n, e = Event.deployCall n none none) ∧
    (∀ out ∈ outsP,
      out.scriptPath = gEx.groupdir ++ "/sbatch/" ++ gEx.phase ++ ".sbatch" ∧
      out.script.slots.time1 = timesEx gEx.phase ∧
      out.script.slots.mem1 = "2G") ∧
    (mainDeploy gEx kwEx allocsEx [] "Y" timesEx
      (fun _ => fsOk)).1.filter Event.isWrite =
      outsP.map (fun o => Event.writeScript o.scriptPath o.script) :=
  planner_path_uniform_scripts gEx kwEx allocsEx [] timesEx (fun _ => fsOk)
    (mainDeploy gEx kwEx allocsEx [] "Y" timesEx (fun _ => fsOk)).1 outsP
    rfl rfl

end GroupRun
